import Mathlib

/-! Verification of the `detect-filetype` library: a magic-number based
file-type sniffer.  The Rust source (src/lib.rs) is shallowly embedded
here: byte buffers become `List Nat`, the `Check` and `Magic` structs
become Lean structures, the static `MAGIC_MAP` table becomes a list
literal built with the same constructor functions, and `detect_filetype`
becomes a recursive scan.  Rust slice indexing `bytes[i..]` and
`bytes[..j]` panic when the index is out of range, so the fallible parts
are modelled with `Except Unit`: `Except.error ()` marks a panic.
-/

namespace DetectFiletype

instance {ε α : Type} [DecidableEq ε] [DecidableEq α] : DecidableEq (Except ε α) := fun a b =>
  match a, b with
  | Except.error x, Except.error y => decidable_of_iff (x = y) (by simp)
  | Except.error _, Except.ok _ => isFalse (fun hc => Except.noConfusion hc)
  | Except.ok _, Except.error _ => isFalse (fun hc => Except.noConfusion hc)
  | Except.ok x, Except.ok y => decidable_of_iff (x = y) (by simp)

/-- The `FileType` enum from the source. -/
inductive FileType where
  | Tga
  | Jpeg
  | Png
  | Bmp
  | Tiff
  | BigTiff
  | Zip
  | Bzip2
  | Tar
deriving DecidableEq, Repr

/-- `FileType::extension`, the match over all nine variants. -/
def FileType.extension : FileType → String
  | FileType.Tga => "tga"
  | FileType.Jpeg => "jpg"
  | FileType.Png => "png"
  | FileType.Bmp => "bmp"
  | FileType.Tiff => "tif"
  | FileType.BigTiff => "tif"
  | FileType.Zip => "zip"
  | FileType.Bzip2 => "bz2"
  | FileType.Tar => "tar"

/-- The `Check` struct: a byte pattern together with an offset. -/
structure Check where
  bytes : List Nat
  offset : Nat
deriving DecidableEq, Repr

/-- `Check::default`: empty pattern at offset 0. -/
def Check.default : Check := { bytes := [], offset := 0 }

/-- `Check::new_with_offset`. -/
def Check.new_with_offset (offset : Nat) (bytes : List Nat) : Check :=
  { bytes := bytes, offset := offset }

/-- `Check::new`: pattern at offset 0. -/
def Check.new (bytes : List Nat) : Check :=
  Check.new_with_offset 0 bytes

/-- The `Magic` struct: a start-anchored and an end-anchored check. -/
structure Magic where
  start : Check
  «end» : Check
deriving DecidableEq, Repr

/-- `Magic::starts_with`. -/
def Magic.starts_with (bytes : List Nat) : Magic :=
  { start := Check.new bytes, «end» := Check.default }

/-- `Magic::starts_with_offset`. -/
def Magic.starts_with_offset (offset : Nat) (bytes : List Nat) : Magic :=
  { start := Check.new_with_offset offset bytes, «end» := Check.default }

/-- `Magic::ends_with`. -/
def Magic.ends_with (bytes : List Nat) : Magic :=
  { start := Check.default, «end» := { bytes := bytes, offset := 0 } }

/-- The start-anchored half of the rule condition in `detect_filetype`:
`bytes[magic.start.offset..].starts_with(magic.start.bytes)`.
The slice expression `bytes[offset..]` panics when `offset > bytes.len()`,
modelled as `Except.error ()`. -/
def startCheck (buffer : List Nat) (c : Check) : Except Unit Bool :=
  if c.offset > buffer.length then Except.error ()
  else Except.ok (List.isPrefixOf c.bytes (buffer.drop c.offset))

/-- The end-anchored half of the rule condition in `detect_filetype`:
`bytes[..bytes.len() - magic.end.offset].ends_with(magic.end.bytes)`.
The subtraction and slice fail when `offset > bytes.len()`, modelled as
`Except.error ()`. -/
def endCheck (buffer : List Nat) (c : Check) : Except Unit Bool :=
  if c.offset > buffer.length then Except.error ()
  else Except.ok (List.isSuffixOf c.bytes (buffer.take (buffer.length - c.offset)))

/-- One rule's full condition, with Rust `&&` short-circuiting: the end
check is only evaluated when the start check returned `true`. -/
def magicMatches (buffer : List Nat) (m : Magic) : Except Unit Bool :=
  match startCheck buffer m.start with
  | Except.error e => Except.error e
  | Except.ok false => Except.ok false
  | Except.ok true => endCheck buffer m.«end»

/-- The byte string `b"TRUEVISION-XFILE.\0"` from the Tga table entry. -/
def tgaTrailer : List Nat :=
  [0x54, 0x52, 0x55, 0x45, 0x56, 0x49, 0x53, 0x49, 0x4f,
   0x4e, 0x2d, 0x58, 0x46, 0x49, 0x4c, 0x45, 0x2e, 0x00]

/-- The byte string `b"PKLITE"` from the offset-0x1e Zip table entry. -/
def pkliteSig : List Nat := [0x50, 0x4b, 0x4c, 0x49, 0x54, 0x45]

/-- The byte string `b"ustar  \0"` from the offset-0x101 Tar table entry. -/
def ustarSig : List Nat := [0x75, 0x73, 0x74, 0x61, 0x72, 0x20, 0x20, 0x00]

/-- The static `MAGIC_MAP` table, entry for entry, built with the same
constructors as the source. -/
def MAGIC_MAP : List (Magic × FileType) :=
  [ (Magic.ends_with tgaTrailer, FileType.Tga),
    (Magic.starts_with [0xff, 0xd8], FileType.Jpeg),
    ({ start := Check.new [0x89, 0x50, 0x4e, 0x47, 0x0d, 0x0a, 0x1a, 0x0a],
       «end» := Check.new [0x49, 0x45, 0x4e, 0x44, 0xae, 0x42, 0x60, 0x82] },
      FileType.Png),
    (Magic.starts_with [0x42, 0x4d], FileType.Bmp),
    (Magic.starts_with [0x49, 0x49, 0x2a, 0x00], FileType.Tiff),
    (Magic.starts_with [0x4d, 0x4d, 0x00, 0x2a], FileType.Tiff),
    (Magic.starts_with [0x49, 0x49, 0x2b, 0x00], FileType.BigTiff),
    (Magic.starts_with [0x4d, 0x4d, 0x00, 0x2b], FileType.BigTiff),
    (Magic.starts_with [0x42, 0x5a, 0x68], FileType.Bzip2),
    (Magic.starts_with [0x50, 0x4b, 0x03, 0x04], FileType.Zip),
    (Magic.starts_with [0x50, 0x4b, 0x05, 0x06], FileType.Zip),
    (Magic.starts_with_offset 0x1e pkliteSig, FileType.Zip),
    (Magic.starts_with_offset 0x101 ustarSig, FileType.Tar) ]

/-- The scan loop of `detect_filetype` over a list of rules: first rule
whose condition is `true` wins; a panic in a condition aborts the scan. -/
def detectGo (buffer : List Nat) : List (Magic × FileType) → Except Unit (Option FileType)
  | [] => Except.ok none
  | (m, ty) :: rest =>
    match magicMatches buffer m with
    | Except.error e => Except.error e
    | Except.ok true => Except.ok (some ty)
    | Except.ok false => detectGo buffer rest

/-- `detect_filetype`: scan `MAGIC_MAP` in order. -/
def detect_filetype (buffer : List Nat) : Except Unit (Option FileType) :=
  detectGo buffer MAGIC_MAP

/-- A complete tar sample: 0x101 filler bytes followed by the
`"ustar  \0"` signature at offset 0x101 (length 0x109 bytes). -/
def tarSample : List Nat := List.replicate 0x101 0 ++ ustarSig

/-- A buffer that begins with the JPEG signature `FF D8` and also ends
with the 18-byte TGA trailer. -/
def jpegTgaBuf : List Nat := [0xff, 0xd8] ++ tgaTrailer

/-- A buffer that begins with the JPEG signature `FF D8` and also carries
the tar signature `"ustar  \0"` at offset 0x101. -/
def jpegTarBuf : List Nat := [0xff, 0xd8] ++ List.replicate 255 0 ++ ustarSig

set_option maxRecDepth 100000

/-- C1: the claim says detection never crashes on short buffers and
returns `None` when nothing matches.  The code violates this: on the
one-byte buffer `[0]` the scan reaches the PKLITE rule, whose start slice
`bytes[0x1e..]` is taken on a too-short buffer and panics, modelled here
as `Except.error ()` instead of `Except.ok none`. -/
theorem detect_panics_on_one_byte_buffer :
    detect_filetype [0] = Except.error () ∧ detect_filetype [0] ≠ Except.ok none := by
  decide

/-- C2: the claim says the start check returns false, without crashing,
whenever `offset + len(bytes) > len(buffer)`.  The code violates this in
the sub-case `offset > len(buffer)`: the slice `bytes[offset..]` panics.
Evaluated at the failing input: the empty buffer against the PKLITE start
check (offset 0x1e, 6 pattern bytes). -/
theorem start_check_panics_when_offset_exceeds_length :
    0x1e + pkliteSig.length > List.length ([] : List Nat) ∧
    startCheck [] (Check.new_with_offset 0x1e pkliteSig) = Except.error () := by
  decide

/-- C3: the claim says the empty buffer yields `None`.  The code violates
this: the scan reaches the PKLITE rule and `bytes[0x1e..]` panics on the
zero-length buffer, modelled as `Except.error ()`. -/
theorem detect_empty_buffer_panics :
    detect_filetype [] = Except.error () ∧ detect_filetype [] ≠ Except.ok none := by
  decide

/-- C4: the claim says truncating a valid tar sample below 0x101+8 bytes
makes detection return `None` gracefully.  The code violates this: the
full sample is detected as Tar, but its truncation to 0x100 bytes makes
the tar rule's start slice `bytes[0x101..]` panic, modelled as
`Except.error ()`. -/
theorem detect_truncated_tar_panics :
    detect_filetype tarSample = Except.ok (some FileType.Tar) ∧
    (tarSample.take 0x100).length < 0x101 + 8 ∧
    detect_filetype (tarSample.take 0x100) = Except.error () := by
  decide

/-- C5: the claim says the bare 8-byte PNG header yields `None` (start
pattern matches, end check fails).  The code violates this: after the PNG
rule's end check correctly fails, the scan continues and the PKLITE rule's
start slice `bytes[0x1e..]` panics on the 8-byte buffer, modelled as
`Except.error ()`. -/
theorem detect_png_header_only_panics :
    detect_filetype [0x89, 0x50, 0x4e, 0x47, 0x0d, 0x0a, 0x1a, 0x0a] = Except.error () ∧
    detect_filetype [0x89, 0x50, 0x4e, 0x47, 0x0d, 0x0a, 0x1a, 0x0a] ≠ Except.ok none := by
  decide

/-- C9: every entry of `MAGIC_MAP` has end-anchor offset 0, so the
end-trim computation `len(buffer) - end.offset` never underflows: it
always equals the full buffer length. -/
theorem end_offsets_all_zero (e : Magic × FileType) (he : e ∈ MAGIC_MAP) :
    e.1.«end».offset = 0 ∧
    ∀ buffer : List Nat, buffer.length - e.1.«end».offset = buffer.length := by
  have h0 : e.1.«end».offset = 0 := by
    have hall : ∀ p ∈ MAGIC_MAP, p.1.«end».offset = 0 := by decide
    exact hall e he
  refine ⟨h0, fun buffer => ?_⟩
  rw [h0, Nat.sub_zero]

/-- Witness for C9: the first table entry is in the table, its end offset
is 0 and the end trim leaves a concrete buffer length unchanged. -/
theorem end_offsets_all_zero_witness :
    (Magic.ends_with tgaTrailer, FileType.Tga).1.«end».offset = 0 ∧
    [0, 1, 2].length - (Magic.ends_with tgaTrailer, FileType.Tga).1.«end».offset = 3 :=
  ⟨(end_offsets_all_zero (Magic.ends_with tgaTrailer, FileType.Tga) (by decide)).1,
   (end_offsets_all_zero (Magic.ends_with tgaTrailer, FileType.Tga) (by decide)).2 [0, 1, 2]⟩

/-- C10: `FileType.extension` is total (a value for each of the nine
variants, stable because it is a function), and the two distinct TIFF
variants share the extension string `"tif"`. -/
theorem extension_total_and_stable :
    (∀ ft : FileType, ∃ s : String, FileType.extension ft = s) ∧
    FileType.extension FileType.Tga = "tga" ∧
    FileType.extension FileType.Jpeg = "jpg" ∧
    FileType.extension FileType.Png = "png" ∧
    FileType.extension FileType.Bmp = "bmp" ∧
    FileType.extension FileType.Tiff = "tif" ∧
    FileType.extension FileType.BigTiff = "tif" ∧
    FileType.extension FileType.Zip = "zip" ∧
    FileType.extension FileType.Bzip2 = "bz2" ∧
    FileType.extension FileType.Tar = "tar" ∧
    FileType.Tiff ≠ FileType.BigTiff ∧
    FileType.extension FileType.Tiff = FileType.extension FileType.BigTiff :=
  ⟨fun ft => ⟨FileType.extension ft, rfl⟩, by decide⟩

/-- Helper: the scan returns the first rule whose condition is `true`,
independently of whatever rules follow it. -/
theorem detectGo_first_true (buffer : List Nat) (l1 l2 : List (Magic × FileType))
    (r : Magic × FileType)
    (hpre : ∀ p ∈ l1, magicMatches buffer p.1 = Except.ok false)
    (hr : magicMatches buffer r.1 = Except.ok true) :
    detectGo buffer (l1 ++ r :: l2) = Except.ok (some r.2) := by
  induction l1 with
  | nil =>
    obtain ⟨m, ty⟩ := r
    have hr' : magicMatches buffer m = Except.ok true := hr
    simp only [List.nil_append, detectGo, hr']
  | cons p l ih =>
    obtain ⟨pm, pty⟩ := p
    have hp : magicMatches buffer pm = Except.ok false :=
      hpre (pm, pty) (List.mem_cons_self _ _)
    simp only [List.cons_append, detectGo, hp]
    exact ih (fun q hq => hpre q (List.mem_cons_of_mem _ hq))

/-- C7: for every buffer and every end-anchored pattern built by
`Magic::ends_with` (offset always 0), the end check returns true iff the
final `len(bytes)` bytes of the untrimmed buffer equal the pattern bytes,
and it returns false whenever the pattern is longer than the buffer. -/
theorem ends_with_check_spec (buffer bs : List Nat) :
    endCheck buffer (Magic.ends_with bs).«end» =
      Except.ok (decide (buffer.drop (buffer.length - bs.length) = bs)) ∧
    (buffer.length < bs.length →
      endCheck buffer (Magic.ends_with bs).«end» = Except.ok false) := by
  have h1 : endCheck buffer (Magic.ends_with bs).«end» =
      Except.ok (List.isSuffixOf bs buffer) := by
    simp [endCheck, Magic.ends_with, List.take_length]
  have h2 : List.isSuffixOf bs buffer =
      decide (buffer.drop (buffer.length - bs.length) = bs) := by
    cases hb : List.isSuffixOf bs buffer with
    | false =>
      symm
      simp only [decide_eq_false_iff_not]
      intro hc
      have hs : bs <:+ buffer := List.suffix_iff_eq_drop.mpr hc.symm
      rw [← List.isSuffixOf_iff_suffix, hb] at hs
      exact Bool.noConfusion hs
    | true =>
      symm
      simp only [decide_eq_true_eq]
      exact (List.suffix_iff_eq_drop.mp (List.isSuffixOf_iff_suffix.mp hb)).symm
  refine ⟨by rw [h1, h2], fun hlt => ?_⟩
  rw [h1, h2]
  have hz : buffer.length - bs.length = 0 := Nat.sub_eq_zero_of_le (Nat.le_of_lt hlt)
  rw [hz, List.drop_zero]
  simp only [decide_eq_false_iff_not, Except.ok.injEq]
  intro hc
  have hlen := congrArg List.length hc
  omega

/-- Witness for C7: the end check on a concrete 3-byte buffer with a
4-byte pattern returns false. -/
theorem ends_with_check_spec_witness :
    endCheck [1, 2, 3] (Magic.ends_with [9, 9, 9, 9]).«end» = Except.ok false :=
  (ends_with_check_spec [1, 2, 3] [9, 9, 9, 9]).2 (by decide)

/-- C6 counterexample: a buffer that starts with `FF D8` but also ends
with the TGA trailer is detected as Tga, not Jpeg, because the Tga rule
comes first in the table. -/
theorem jpeg_prefix_claim_counterexample :
    2 ≤ jpegTgaBuf.length ∧ jpegTgaBuf.take 2 = [0xff, 0xd8] ∧
    detect_filetype jpegTgaBuf = Except.ok (some FileType.Tga) ∧
    detect_filetype jpegTgaBuf ≠ Except.ok (some FileType.Jpeg) := by
  decide

/-- C6 (amended): every buffer of length at least 2 that starts with
`FF D8` and does not end with the 18-byte TGA trailer is detected as
Jpeg. -/
theorem jpeg_prefix_detected_unless_tga_trailer (buffer : List Nat)
    (hlen : 2 ≤ buffer.length) (hhead : buffer.take 2 = [0xff, 0xd8])
    (htga : List.isSuffixOf tgaTrailer buffer = false) :
    detect_filetype buffer = Except.ok (some FileType.Jpeg) := by
  have hpre : List.isPrefixOf [0xff, 0xd8] buffer = true := by
    rw [ List.isPrefixOf_iff_prefix]
    exact ⟨buffer.drop 2, by rw [← hhead]; exact List.take_append_drop 2 buffer⟩
  have h0 : magicMatches buffer (Magic.ends_with tgaTrailer) = Except.ok false := by
    simp [magicMatches, startCheck, endCheck, Magic.ends_with, Check.default,
      List.take_length, List.isPrefixOf, htga]
  have h1 : magicMatches buffer (Magic.starts_with [0xff, 0xd8]) = Except.ok true := by
    simp [magicMatches, startCheck, endCheck, Magic.starts_with, Check.new,
      Check.new_with_offset, Check.default, hpre, List.take_length, List.isSuffixOf]
  have htab : MAGIC_MAP = [(Magic.ends_with tgaTrailer, FileType.Tga)] ++
      (Magic.starts_with [0xff, 0xd8], FileType.Jpeg) :: MAGIC_MAP.drop 2 := rfl
  unfold detect_filetype
  rw [htab]
  refine detectGo_first_true buffer _ _ _ ?_ h1
  intro p hp
  have hp' : p = (Magic.ends_with tgaTrailer, FileType.Tga) := by
    simpa using hp
  rw [hp']
  exact h0

/-- Witness for C6 (amended): the bare two-byte buffer `FF D8` is
detected as Jpeg. -/
theorem jpeg_prefix_detected_witness :
    detect_filetype [0xff, 0xd8] = Except.ok (some FileType.Jpeg) :=
  jpeg_prefix_detected_unless_tga_trailer [0xff, 0xd8] (by decide) (by decide) (by decide)

/-- C8: whenever the table splits as `l1 ++ r :: l2` with every rule of
`l1` evaluating to false on the buffer and `r` evaluating to true, the
detector returns `r`'s FileType — the earliest matching entry wins, no
matter which later rules (of the same or another FileType) also match. -/
theorem detect_first_match_wins (buffer : List Nat) (l1 l2 : List (Magic × FileType))
    (r : Magic × FileType) (htab : MAGIC_MAP = l1 ++ r :: l2)
    (hpre : ∀ p ∈ l1, magicMatches buffer p.1 = Except.ok false)
    (hr : magicMatches buffer r.1 = Except.ok true) :
    detect_filetype buffer = Except.ok (some r.2) := by
  unfold detect_filetype
  rw [htab]
  exact detectGo_first_true buffer l1 l2 r hpre hr

/-- Witness for C8: a buffer matching both the Jpeg rule and the (later)
Tar rule is detected as Jpeg, the earlier of the two. -/
theorem detect_first_match_wins_witness :
    magicMatches jpegTarBuf (Magic.starts_with_offset 0x101 ustarSig) = Except.ok true ∧
    detect_filetype jpegTarBuf = Except.ok (some FileType.Jpeg) :=
  ⟨by decide,
   detect_first_match_wins jpegTarBuf
     [(Magic.ends_with tgaTrailer, FileType.Tga)]
     (MAGIC_MAP.drop 2)
     (Magic.starts_with [0xff, 0xd8], FileType.Jpeg)
     (by decide) (by decide) (by decide)⟩

end DetectFiletype
